import Mathlib

/-!
Shallow embedding of the registration/ticket-inventory subsystem of the
demoevent repository.

Sources embedded:
- `src/lib/services/registrationService.ts`: `ticketTypeService.updateTicketAvailability`,
  `registrationService.updateRegistrationStatus`, `registrationService.getRegistrationSummary`,
  `registrationService.createRegistration`.
- `src/lib/utils/dataUtils.ts`: `submitRegistrationMutation` (the `mutationFn`).
- the zod validation module (`createCustomFieldValidation`).

Modelling conventions: TypeScript `number` becomes `Int` (quantities) or `Rat`
(prices/amounts); Firestore documents become association lists keyed by `id`;
`async` functions that can `throw` become `Except String`; external
nondeterminism (`new Date()`, `crypto.randomUUID()`, generated confirmation
codes, Firestore-assigned ids) becomes explicit parameters; the JavaScript
regex engine and other string predicates the claims do not inspect become
function parameters.
-/

/-- Registration status enumeration (`Registration['status']`). -/
inductive RegStatus where
  | pending
  | confirmed
  | cancelled
  | waitlisted
deriving DecidableEq, Repr

/-- Payment status enumeration (`Registration['paymentStatus']`). -/
inductive PayStatus where
  | pending
  | completed
  | failed
  | refunded
deriving DecidableEq, Repr

/-- `TicketType` document (fields used by the embedded operations). -/
structure TicketType where
  id : String
  name : String
  price : Rat
  maxQuantity : Int
  availableQuantity : Int
  isActive : Bool
deriving DecidableEq, Repr

/-- `TicketSelection` as submitted by the caller: note it carries a
caller-supplied `price` field (see `ticketSelectionSchema`). -/
structure TicketSelection where
  ticketTypeId : String
  quantity : Int
  price : Rat
deriving DecidableEq, Repr

/-- A participant record (scalar fields; custom-field values and uploads are
validated separately and not read by the embedded orchestration logic). -/
structure Participant where
  firstName : String
  lastName : String
  email : String
  phone : Option String
deriving DecidableEq, Repr

/-- A persisted `Registration` document. `registrationDate` is kept as the
calendar-day string the summary logic derives from it. -/
structure Registration where
  id : String
  eventId : String
  formConfigId : String
  primaryParticipant : Participant
  additionalParticipants : List Participant
  ticketSelections : List TicketSelection
  totalAmount : Rat
  status : RegStatus
  paymentStatus : PayStatus
  registrationDate : String
  confirmationCode : String
  approvedAt : Option String
deriving DecidableEq, Repr

/-- `RegistrationFormConfig` (fields read by `submitRegistrationMutation`). -/
structure RegistrationFormConfig where
  id : String
  eventId : String
  requiresApproval : Bool
  isActive : Bool
deriving DecidableEq, Repr

/-- The caller-assembled `RegistrationFormData` payload. -/
structure RegistrationFormData where
  primaryParticipant : Participant
  additionalParticipants : List Participant
  ticketSelections : List TicketSelection
deriving DecidableEq, Repr

/-- The Firestore collections touched by the embedded operations. -/
structure DB where
  ticketTypes : List TicketType
  registrations : List Registration
deriving DecidableEq, Repr

/-- `getDoc` on the `ticketTypes` collection: the read phase of
`updateTicketAvailability` (registrationService.ts line 272). -/
def readTicketType (db : DB) (ticketTypeId : String) : Option TicketType :=
  db.ticketTypes.find? (fun t => t.id == ticketTypeId)

/-- `updateDoc(docRef, { availableQuantity: v })`: the write phase of
`updateTicketAvailability` (registrationService.ts line 282). The write is
unconditional: it stores the absolute value `v` computed from the earlier
read, not a relative decrement. -/
def writeAvailableQuantity (db : DB) (ticketTypeId : String) (v : Int) : DB :=
  { db with
    ticketTypes :=
      db.ticketTypes.map fun t =>
        if t.id == ticketTypeId then { t with availableQuantity := v } else t }

/-- `ticketTypeService.updateTicketAvailability` (registrationService.ts
lines 269-292): read the document, add `quantityChange` to the read
`availableQuantity`, reject if the result is negative, otherwise write the
result back. Composed from `readTicketType` and `writeAvailableQuantity`,
which are the two separate Firestore round-trips of the source. -/
def updateTicketAvailability (db : DB) (ticketTypeId : String)
    (quantityChange : Int) : Except String DB :=
  match readTicketType db ticketTypeId with
  | none => .error "Ticket type not found"
  | some currentData =>
      let newAvailableQuantity := currentData.availableQuantity + quantityChange
      if newAvailableQuantity < 0 then
        .error "Insufficient ticket availability"
      else
        .ok (writeAvailableQuantity db ticketTypeId newAvailableQuantity)

/-- `registrationService.createRegistration` (registrationService.ts lines
36-49): `addDoc` persists the record; the Firestore-assigned document id is
already carried in `reg.id` (supplied by the caller of the model as the
nondeterministic id). -/
def createRegistration (db : DB) (reg : Registration) : DB :=
  { db with registrations := reg :: db.registrations }

/-- The ticket-availability validation loop of `submitRegistrationMutation`
(dataUtils.ts lines 339-347): for each selection, look the ticket type up in
the *loaded snapshot* `ticketTypes`; throw `Ticket type not found: id` if
absent, `Insufficient tickets available for name` if
`availableQuantity < quantity`. Returns the first error, if any. -/
def validateTicketSelections (ticketTypes : List TicketType) :
    List TicketSelection → Option String
  | [] => none
  | selection :: rest =>
      match ticketTypes.find? (fun t => t.id == selection.ticketTypeId) with
      | none => some ("Ticket type not found: " ++ selection.ticketTypeId)
      | some ticketType =>
          if ticketType.availableQuantity < selection.quantity then
            some ("Insufficient tickets available for " ++ ticketType.name)
          else
            validateTicketSelections ticketTypes rest

/-- The `totalAmount` computation of `submitRegistrationMutation`
(dataUtils.ts lines 350-353): `reduce` over the selections, adding
`ticketType.price * selection.quantity` with the price looked up in the
loaded snapshot (and `0` when the lookup fails); the caller-supplied
`selection.price` is never read. -/
def calcTotalAmount (ticketTypes : List TicketType)
    (selections : List TicketSelection) : Rat :=
  selections.foldl
    (fun sum selection =>
      match ticketTypes.find? (fun t => t.id == selection.ticketTypeId) with
      | some ticketType => sum + ticketType.price * (selection.quantity : Rat)
      | none => sum + 0)
    0

/-- The post-creation inventory loop of `submitRegistrationMutation`
(dataUtils.ts lines 381-386): sequentially `await
updateTicketAvailability(ticketTypeId, -quantity)` for every selection. When
one call throws, the mutation rejects with that error and the writes already
performed remain in place (no compensation), so the state at the failure
point is returned alongside the error. -/
def applyTicketUpdates (db : DB) :
    List TicketSelection → Except String Unit × DB
  | [] => (.ok (), db)
  | selection :: rest =>
      match updateTicketAvailability db selection.ticketTypeId
          (-selection.quantity) with
      | .error e => (.error e, db)
      | .ok db' => applyTicketUpdates db' rest

/-- The `mutationFn` of `submitRegistrationMutation` (dataUtils.ts lines
333-389). Explicit parameters stand for ambient data of the hook: `formConfig`
and `ticketTypes` are the cached query results the mutation closes over
(`ticketTypes` is a *snapshot* — the availability loop re-reads the live
`db`), and `registrationId` / `regDate` / `confirmationCode` stand for the
Firestore-assigned id, `new Date()` and `generateConfirmationCode()`.
Returns the mutation result together with the database after all performed
writes. -/
def submitRegistrationMutation (formConfig : Option RegistrationFormConfig)
    (ticketTypes : List TicketType) (eventId : String) (db : DB)
    (formData : RegistrationFormData) (registrationId : String)
    (regDate : String) (confirmationCode : String) :
    Except String (String × String) × DB :=
  match formConfig with
  | none => (.error "Registration form configuration not found", db)
  | some formConfig =>
      match validateTicketSelections ticketTypes formData.ticketSelections with
      | some e => (.error e, db)
      | none =>
          let totalAmount := calcTotalAmount ticketTypes formData.ticketSelections
          let registrationData : Registration :=
            { id := registrationId
              eventId := eventId
              formConfigId := formConfig.id
              primaryParticipant := formData.primaryParticipant
              additionalParticipants := formData.additionalParticipants
              ticketSelections := formData.ticketSelections
              totalAmount := totalAmount
              status := if formConfig.requiresApproval then .pending else .confirmed
              paymentStatus := if totalAmount = 0 then .completed else .pending
              registrationDate := regDate
              confirmationCode := confirmationCode
              approvedAt := none }
          let db₁ := createRegistration db registrationData
          match applyTicketUpdates db₁ formData.ticketSelections with
          | (.error e, db₂) => (.error e, db₂)
          | (.ok _, db₂) => (.ok (registrationId, confirmationCode), db₂)

/-- `registrationService.updateRegistrationStatus` (registrationService.ts
lines 103-128): build the update object — always `status`, `paymentStatus`
only when a truthy value was passed, `approvedAt := now` exactly when the new
status is `'confirmed'` — and `updateDoc` it onto the document. `updateDoc` on
a missing document rejects, which the `catch` rethrows as a generic error. -/
def updateRegistrationStatus (db : DB) (id : String) (status : RegStatus)
    (paymentStatus : Option PayStatus) (now : String) : Except String DB :=
  match db.registrations.find? (fun r => r.id == id) with
  | none => .error "Failed to update registration status"
  | some _ =>
      .ok { db with
        registrations := db.registrations.map fun r =>
          if r.id == id then
            { r with
              status := status
              paymentStatus := paymentStatus.getD r.paymentStatus
              approvedAt := if status = .confirmed then some now else r.approvedAt }
          else r }

/-- The result shape of `getRegistrationSummary`. `ticketsSold` and
`registrationsByDate` are the accumulated maps, represented as total
functions with default `0` (absent key reads as `0`). -/
structure RegistrationSummary where
  totalRegistrations : Nat
  confirmedRegistrations : Nat
  pendingRegistrations : Nat
  totalRevenue : Rat
  ticketsSold : String → Int
  registrationsByDate : String → Nat

/-- The nested `forEach` of `getRegistrationSummary` that accumulates
`ticketsSold` (registrationService.ts lines 147-154): every registration's
every selection adds its `quantity` under its `ticketTypeId`, with no filter
on the registration's status. -/
def ticketsSoldMap (registrations : List Registration) : String → Int :=
  registrations.foldl
    (fun acc registration =>
      registration.ticketSelections.foldl
        (fun acc selection => fun t =>
          if t = selection.ticketTypeId then acc t + selection.quantity else acc t)
        acc)
    (fun _ => 0)

/-- The `forEach` of `getRegistrationSummary` that accumulates
`registrationsByDate` (registrationService.ts lines 157-163), with
`registrationDate` already reduced to its calendar-day key. -/
def registrationsByDateMap (registrations : List Registration) : String → Nat :=
  registrations.foldl
    (fun acc registration => fun d =>
      if d = registration.registrationDate then acc d + 1 else acc d)
    (fun _ => 0)

/-- `registrationService.getRegistrationSummary` (registrationService.ts
lines 131-170), as the pure aggregation it performs over the event's
registration list. -/
def getRegistrationSummary (registrations : List Registration) :
    RegistrationSummary :=
  { totalRegistrations := registrations.length
    confirmedRegistrations :=
      (registrations.filter (fun r => r.status = .confirmed)).length
    pendingRegistrations :=
      (registrations.filter (fun r => r.status = .pending)).length
    totalRevenue :=
      (registrations.filter (fun r => r.paymentStatus = .completed)).foldl
        (fun sum r => sum + r.totalAmount) 0
    ticketsSold := ticketsSoldMap registrations
    registrationsByDate := registrationsByDateMap registrations }

/-- Custom field type enumeration (`customFieldSchema.type`). -/
inductive CustomFieldType where
  | text
  | email
  | phone
  | select
  | checkbox
  | textarea
  | file
  | date
deriving DecidableEq, Repr

/-- The optional `validation` object of a custom field. -/
structure FieldValidationRules where
  minLength : Option Int
  maxLength : Option Int
  pattern : Option String
  fileTypes : Option (List String)
  maxFileSize : Option Int
deriving DecidableEq, Repr

/-- A `CustomField` definition (`customFieldSchema`). -/
structure CustomField where
  id : String
  name : String
  label : String
  type : CustomFieldType
  required : Bool
  options : Option (List String)
  validation : Option FieldValidationRules
  order : Int
deriving DecidableEq, Repr

/-- A submitted value for one custom field. `missing` is JavaScript
`undefined`/`null`; `fileRef` is an uploaded-file object. -/
inductive FieldValue where
  | str (s : String)
  | boolean (b : Bool)
  | fileRef
  | missing
deriving DecidableEq, Repr

/-- The JavaScript string predicates the compiled validators delegate to:
`new RegExp(p).test(s)`, zod's email check, the phone regex literal, and
`!isNaN(Date.parse(s))`. The claims never inspect these, so they stay
abstract parameters. -/
structure JsPredicates where
  regexTest : String → String → Bool
  isEmail : String → Bool
  isPhone : String → Bool
  parsesAsDate : String → Bool

/-- `createCustomFieldValidation` (the zod validation module, lines 73-120):
compile a `CustomField` into a validator, returned here as the predicate
"zod `parse` succeeds on this value". Faithful to the source's truthiness
guards: `minLength`/`maxLength` are applied only when present *and nonzero*,
`pattern` only when present and nonempty; `required` chooses between the
built validator and its `.optional()` form, which only changes whether
`missing` is accepted. -/
def createCustomFieldValidation (js : JsPredicates) (field : CustomField) :
    FieldValue → Bool :=
  match field.type with
  | .text | .textarea => fun v =>
      match v with
      | .str s =>
          (match field.validation with
           | some rules =>
               (match rules.minLength with
                | some m => if m ≠ 0 then decide (m ≤ (s.length : Int)) else true
                | none => true)
               &&
               (match rules.maxLength with
                | some m => if m ≠ 0 then decide ((s.length : Int) ≤ m) else true
                | none => true)
               &&
               (match rules.pattern with
                | some p => if p ≠ "" then js.regexTest p s else true
                | none => true)
           | none => true)
      | .missing => !field.required
      | _ => false
  | .email => fun v =>
      match v with
      | .str s => js.isEmail s
      | .missing => !field.required
      | _ => false
  | .phone => fun v =>
      match v with
      | .str s => js.isPhone s
      | .missing => !field.required
      | _ => false
  | .select => fun v =>
      match v with
      | .str s =>
          match field.options with
          | some os => if os ≠ [] then os.contains s else true
          | none => true
      | .missing => !field.required
      | _ => false
  | .checkbox => fun v =>
      match v with
      | .boolean b => if field.required then b else true
      | .missing => !field.required
      | _ => false
  | .date => fun v =>
      match v with
      | .str s => js.parsesAsDate s
      | .missing => !field.required
      | _ => false
  | .file => fun v =>
      if field.required then
        match v with
        | .missing => false
        | _ => true
      else true

/-! ### Helper lemmas -/

/-- `find?` over a list whose matching elements were rewritten by an
id-preserving update returns the updated first match. -/
lemma find_update_eq {α : Type} (p : α → Bool) (f : α → α)
    (hp : ∀ a, p (f a) = p a) :
    ∀ l : List α,
      (l.map fun a => if p a then f a else a).find? p = (l.find? p).map f := by
  intro l
  induction l with
  | nil => rfl
  | cons x xs ih =>
      by_cases hx : p x = true
      · simp [List.find?_cons, hx, hp]
      · simp only [List.map_cons]
        rw [if_neg (by simp [hx])]
        rw [List.find?_cons_of_neg _ (by simp [hx]), List.find?_cons_of_neg _ (by simp [hx])]
        exact ih

/-- `writeAvailableQuantity` leaves the registrations collection alone. -/
lemma write_preserves_registrations (db : DB) (i : String) (v : Int) :
    (writeAvailableQuantity db i v).registrations = db.registrations := rfl

/-- A successful `updateTicketAvailability` leaves the registrations
collection alone. -/
lemma updateTicketAvailability_registrations (db : DB) (i : String) (c : Int)
    (db' : DB) (h : updateTicketAvailability db i c = .ok db') :
    db'.registrations = db.registrations := by
  unfold updateTicketAvailability at h
  cases hr : readTicketType db i with
  | none => rw [hr] at h; exact absurd h (by simp)
  | some t =>
      rw [hr] at h
      dsimp only at h
      split at h
      · exact absurd h (by simp)
      · cases h
        rfl

/-- The inventory loop of `submitRegistrationMutation` never touches the
registrations collection, whether it fails midway or completes. -/
lemma applyTicketUpdates_registrations (sels : List TicketSelection) :
    ∀ db : DB, ((applyTicketUpdates db sels).2).registrations = db.registrations := by
  induction sels with
  | nil => intro db; rfl
  | cons s rest ih =>
      intro db
      unfold applyTicketUpdates
      cases h : updateTicketAvailability db s.ticketTypeId (-s.quantity) with
      | error e => rfl
      | ok db' =>
          simp only []
          rw [ih db', updateTicketAvailability_registrations db _ _ db' h]

/-- Reading the ticket type just written returns it with the new
`availableQuantity`. -/
lemma readTicketType_write (db : DB) (i : String) (v : Int) :
    readTicketType (writeAvailableQuantity db i v) i =
      (readTicketType db i).map fun t => { t with availableQuantity := v } := by
  unfold readTicketType writeAvailableQuantity
  exact find_update_eq (fun t => t.id == i)
    (fun t => { t with availableQuantity := v }) (fun a => rfl) db.ticketTypes

/-! ### Concrete fixtures used by witnesses and counterexamples -/

/-- A sample participant. -/
def demoParticipant : Participant :=
  { firstName := "Ada", lastName := "Lovelace", email := "ada@example.com",
    phone := none }

/-- A sample active form configuration without approval. -/
def demoCfg : RegistrationFormConfig :=
  { id := "form1", eventId := "ev1", requiresApproval := false, isActive := true }

/-- A ticket type at full capacity: `maxQuantity = availableQuantity = 2`. -/
def capTicket : TicketType :=
  { id := "t1", name := "General", price := 5, maxQuantity := 2,
    availableQuantity := 2, isActive := true }

/-- A database holding only `capTicket`. -/
def capDB : DB := { ticketTypes := [capTicket], registrations := [] }

/-- A cancelled registration. -/
def cancelledReg : Registration :=
  { id := "r1", eventId := "ev1", formConfigId := "form1",
    primaryParticipant := demoParticipant, additionalParticipants := [],
    ticketSelections := [], totalAmount := 0, status := .cancelled,
    paymentStatus := .completed, registrationDate := "2026-01-01",
    confirmationCode := "AAAA1111", approvedAt := none }

/-- A database holding only `cancelledReg`. -/
def cancelledDB : DB := { ticketTypes := [], registrations := [cancelledReg] }

/-- A pending registration. -/
def pendingReg : Registration :=
  { cancelledReg with
    id := "r2"
    status := .pending
    paymentStatus := .pending
    confirmationCode := "BBBB2222" }

/-- A database holding only `pendingReg`. -/
def pendingDB : DB := { ticketTypes := [], registrations := [pendingReg] }

/-! ### Claim C4 -/

/-- Claim C4 counterexample: with `availableQuantity = maxQuantity = 2`, the
release `updateTicketAvailability "t1" (+1)` succeeds without clamping or
rejection and leaves `availableQuantity = 3 > maxQuantity`, so the upper half
of the claimed invariant `availableQuantity ≤ maxQuantity` is not enforced. -/
theorem release_exceeds_maxQuantity :
    updateTicketAvailability capDB "t1" 1 =
      .ok (writeAvailableQuantity capDB "t1" 3) ∧
    readTicketType (writeAvailableQuantity capDB "t1" 3) "t1" =
      some { capTicket with availableQuantity := 3 } ∧
    capTicket.maxQuantity < 3 :=
  ⟨rfl, rfl, by decide⟩

/-- Claim C4 (amended): `updateTicketAvailability` enforces only the lower
bound — a successful call yields exactly `availableQuantity + quantityChange`
with that value nonnegative, and a change that would drive the value below 0
is rejected; no upper clamp at `maxQuantity` exists, so a release may exceed
it. -/
theorem updateTicketAvailability_bounds (db : DB) (i : String) (c : Int) :
    (∀ db', updateTicketAvailability db i c = .ok db' →
      ∃ t, readTicketType db i = some t ∧ 0 ≤ t.availableQuantity + c ∧
        readTicketType db' i =
          some { t with availableQuantity := t.availableQuantity + c })
    ∧ (∀ t, readTicketType db i = some t → t.availableQuantity + c < 0 →
        updateTicketAvailability db i c =
          .error "Insufficient ticket availability") := by
  constructor
  · intro db' h
    unfold updateTicketAvailability at h
    cases hr : readTicketType db i with
    | none => rw [hr] at h; exact absurd h (by simp)
    | some t =>
        rw [hr] at h
        dsimp only at h
        by_cases hneg : t.availableQuantity + c < 0
        · rw [if_pos hneg] at h; exact absurd h (by simp)
        · rw [if_neg hneg] at h
          cases h
          refine ⟨t, rfl, by omega, ?_⟩
          rw [readTicketType_write, hr]
          rfl
  · intro t hr hneg
    unfold updateTicketAvailability
    rw [hr]
    dsimp only
    rw [if_pos hneg]

/-- Witness for `updateTicketAvailability_bounds`: reserving 3 tickets when
only 2 are available is rejected. -/
theorem updateTicketAvailability_bounds_witness :
    updateTicketAvailability capDB "t1" (-3) =
      .error "Insufficient ticket availability" :=
  (updateTicketAvailability_bounds capDB "t1" (-3)).2 capTicket (by decide)
    (by decide)

/-! ### Claim C5 -/

/-- Claim C5 counterexample: `updateRegistrationStatus` moves a registration
from `'cancelled'` to `'confirmed'` (stamping `approvedAt`), so `'cancelled'`
is not terminal and the claimed transition relation is not enforced. -/
theorem updateStatus_cancelled_not_terminal :
    updateRegistrationStatus cancelledDB "r1" .confirmed none "2026-02-01" =
      .ok { cancelledDB with
        registrations := [{ cancelledReg with
          status := .confirmed
          approvedAt := some "2026-02-01" }] } :=
  rfl

/-- Claim C5 (amended): `updateRegistrationStatus` performs no transition
check at all — for every existing registration, whatever its current status,
any requested status is stored verbatim (with `approvedAt` stamped exactly
when the new status is `'confirmed'`, and `paymentStatus` overwritten exactly
when one was passed). -/
theorem updateStatus_unconditional (db : DB) (id : String) (st : RegStatus)
    (ps : Option PayStatus) (now : String) (r₀ : Registration)
    (h : db.registrations.find? (fun r => r.id == id) = some r₀) :
    ∃ db', updateRegistrationStatus db id st ps now = .ok db' ∧
      db'.registrations.find? (fun r => r.id == id) =
        some { r₀ with
          status := st
          paymentStatus := ps.getD r₀.paymentStatus
          approvedAt := if st = .confirmed then some now
                        else r₀.approvedAt } := by
  unfold updateRegistrationStatus
  rw [h]
  refine ⟨_, rfl, ?_⟩
  show (db.registrations.map fun r =>
      if r.id == id then
        { r with
          status := st
          paymentStatus := ps.getD r.paymentStatus
          approvedAt := if st = .confirmed then some now
                        else r.approvedAt }
      else r).find? (fun r => r.id == id) = _
  rw [find_update_eq (fun r => r.id == id)
    (fun r =>
      { r with
        status := st
        paymentStatus := ps.getD r.paymentStatus
        approvedAt := if st = .confirmed then some now
                      else r.approvedAt })
    (fun a => rfl) db.registrations, h]
  rfl

/-- Witness for `updateStatus_unconditional`: a pending registration is moved
to `'waitlisted'` with its payment marked `'failed'`. -/
theorem updateStatus_unconditional_witness :
    ∃ db', updateRegistrationStatus pendingDB "r2" .waitlisted
        (some .failed) "2026-03-01" = .ok db' ∧
      db'.registrations.find? (fun r => r.id == "r2") =
        some { pendingReg with
          status := .waitlisted
          paymentStatus := (some PayStatus.failed).getD pendingReg.paymentStatus
          approvedAt := if RegStatus.waitlisted = .confirmed
                        then some "2026-03-01"
                        else pendingReg.approvedAt } :=
  updateStatus_unconditional pendingDB "r2" .waitlisted (some .failed)
    "2026-03-01" pendingReg (by decide)

/-! ### Claim C1 -/

/-- Claim C1 (code bug): `updateTicketAvailability` is a separate `getDoc`
read (`readTicketType`) followed by an unconditional `updateDoc` write
(`writeAvailableQuantity`) of the absolute quantity computed from that read.
For `capTicket` (`maxQuantity = availableQuantity = 2`) and two concurrent
reserve calls of 2 interleaved read₁, read₂, write₁, write₂: both calls read
the initial state, so the first conjunct shows each call's decision — it
passes the guard and performs its write, reporting success; the second
conjunct shows the state after both stale writes land, `availableQuantity =
0` with no error anywhere; the third records that the 2 + 2 = 4 granted
tickets exceed `maxQuantity = 2`. The claimed atomic-conditional-decrement
behaviour would have failed one of the calls. -/
theorem reserve_race_oversells :
    updateTicketAvailability capDB "t1" (-2) =
      .ok (writeAvailableQuantity capDB "t1" (2 + (-2))) ∧
    readTicketType
        (writeAvailableQuantity
          (writeAvailableQuantity capDB "t1" (2 + (-2))) "t1" (2 + (-2)))
        "t1" =
      some { capTicket with availableQuantity := 0 } ∧
    capTicket.maxQuantity < 2 + 2 :=
  ⟨rfl, rfl, by decide⟩

/-! ### Claim C2 -/

/-- The ticket type as cached in the submit hook's query snapshot: one seat
still available. -/
def staleSnapshotTicket : TicketType :=
  { id := "t1", name := "General", price := 5, maxQuantity := 2,
    availableQuantity := 1, isActive := true }

/-- The same ticket type in the live store after a concurrent sale: sold
out. -/
def soldOutTicket : TicketType :=
  { staleSnapshotTicket with availableQuantity := 0 }

/-- Live database at submit time: the ticket is sold out, nothing persisted
yet. -/
def soldOutDB : DB := { ticketTypes := [soldOutTicket], registrations := [] }

/-- A submission requesting one `t1` ticket. -/
def oneTicketFormData : RegistrationFormData :=
  { primaryParticipant := demoParticipant, additionalParticipants := [],
    ticketSelections := [{ ticketTypeId := "t1", quantity := 1, price := 5 }] }

/-- Claim C2 (code bug): a submit whose inventory update fails after the
registration was persisted leaves partial state behind. The snapshot says one
seat is left, the live store is sold out: validation (against the snapshot)
passes, the Registration is persisted, then `updateTicketAvailability`
throws — the mutation rejects, yet the Registration stays persisted and no
ticket quantity was reserved, contradicting all-or-nothing. -/
theorem submit_keeps_registration_on_inventory_failure :
    ∃ dbAfter,
      submitRegistrationMutation (some demoCfg) [staleSnapshotTicket] "ev1"
          soldOutDB oneTicketFormData "r1" "2026-01-01" "CODE1234" =
        (.error "Insufficient ticket availability", dbAfter) ∧
      (∃ r, dbAfter.registrations = [r] ∧ r.confirmationCode = "CODE1234") ∧
      dbAfter.ticketTypes = soldOutDB.ticketTypes :=
  ⟨_, rfl, ⟨_, rfl, rfl⟩, rfl⟩

/-! ### Claim C3 -/

/-- Snapshot entry for ticket type `a`: one seat left. -/
def ticketASnap : TicketType :=
  { id := "a", name := "A", price := 5, maxQuantity := 2,
    availableQuantity := 1, isActive := true }

/-- Snapshot entry for ticket type `b`: one seat left. -/
def ticketBSnap : TicketType :=
  { id := "b", name := "B", price := 5, maxQuantity := 2,
    availableQuantity := 1, isActive := true }

/-- Live database at submit time: `a` still has its seat, `b` is sold out. -/
def twoTicketDB : DB :=
  { ticketTypes := [ticketASnap, { ticketBSnap with availableQuantity := 0 }],
    registrations := [] }

/-- A submission requesting one ticket each of `a` and `b`. -/
def twoTicketFormData : RegistrationFormData :=
  { primaryParticipant := demoParticipant, additionalParticipants := [],
    ticketSelections :=
      [{ ticketTypeId := "a", quantity := 1, price := 5 },
       { ticketTypeId := "b", quantity := 1, price := 5 }] }

/-- Claim C3 (code bug): the code persists the Registration before reserving
anything and performs no compensating release. With `b` sold out in the live
store, the reservation of `a` succeeds (its `availableQuantity` drops from 1
to 0), the reservation of `b` fails, the mutation rejects — and the
Registration is still persisted while `a`'s granted reservation is never
released, contradicting the claimed reserve-then-persist order and the
reverse-order release on failure. -/
theorem submit_persists_before_reserving_no_rollback :
    ∃ dbAfter,
      submitRegistrationMutation (some demoCfg) [ticketASnap, ticketBSnap]
          "ev1" twoTicketDB twoTicketFormData "r1" "2026-01-01" "CODE5678" =
        (.error "Insufficient ticket availability", dbAfter) ∧
      (∃ r, dbAfter.registrations = [r] ∧ r.confirmationCode = "CODE5678") ∧
      (readTicketType dbAfter "a").map (fun t => t.availableQuantity) =
        some 0 ∧
      (readTicketType twoTicketDB "a").map (fun t => t.availableQuantity) =
        some 1 :=
  ⟨_, rfl, ⟨_, rfl, rfl⟩, rfl, rfl⟩

/-! ### Submit success path -/

/-- The `registrationData` value `submitRegistrationMutation` constructs
(dataUtils.ts lines 356-375), factored out so the success-path lemmas can
name it. -/
def builtRegistration (cfg : RegistrationFormConfig) (tts : List TicketType)
    (eventId : String) (fd : RegistrationFormData)
    (rid rdate code : String) : Registration :=
  { id := rid
    eventId := eventId
    formConfigId := cfg.id
    primaryParticipant := fd.primaryParticipant
    additionalParticipants := fd.additionalParticipants
    ticketSelections := fd.ticketSelections
    totalAmount := calcTotalAmount tts fd.ticketSelections
    status := if cfg.requiresApproval then .pending else .confirmed
    paymentStatus := if calcTotalAmount tts fd.ticketSelections = 0
                     then .completed else .pending
    registrationDate := rdate
    confirmationCode := code
    approvedAt := none }

/-- A successful `submitRegistrationMutation` returns `(registrationId,
confirmationCode)` and its final database carries exactly the constructed
registration on top of the previous registrations. -/
lemma submit_ok_shape (cfg : RegistrationFormConfig) (tts : List TicketType)
    (eventId : String) (db : DB) (fd : RegistrationFormData)
    (rid rdate code : String) (out : String × String) (db' : DB)
    (h : submitRegistrationMutation (some cfg) tts eventId db fd rid rdate code
          = (.ok out, db')) :
    out = (rid, code) ∧
    db'.registrations =
      builtRegistration cfg tts eventId fd rid rdate code
        :: db.registrations := by
  unfold submitRegistrationMutation at h
  cases hv : validateTicketSelections tts fd.ticketSelections with
  | some e =>
      rw [hv] at h
      simp at h
  | none =>
      rw [hv] at h
      dsimp only at h
      split at h
      · rw [Prod.mk.injEq] at h
        exact absurd h.1 (by simp)
      · rename_i u db₂ heq
        rw [Prod.mk.injEq] at h
        obtain ⟨hout, hdb⟩ := h
        subst hdb
        refine ⟨(Except.ok.inj hout).symm, ?_⟩
        have hreg := congrArg (fun p => p.2.registrations) heq
        dsimp only at hreg
        rw [applyTicketUpdates_registrations] at hreg
        exact hreg.symm

/-! ### Claim C6 -/

/-- A ticket type with seats to spare. -/
def demoTicket : TicketType :=
  { id := "t1", name := "General", price := 5, maxQuantity := 5,
    availableQuantity := 3, isActive := true }

/-- A live database agreeing with the snapshot `[demoTicket]`. -/
def demoDB : DB := { ticketTypes := [demoTicket], registrations := [] }

/-- A submission requesting two `t1` tickets. -/
def demoFormData : RegistrationFormData :=
  { primaryParticipant := demoParticipant, additionalParticipants := [],
    ticketSelections := [{ ticketTypeId := "t1", quantity := 2, price := 0 }] }

/-- Claim C6: every successful submit persists a registration whose initial
`status` is `'pending'` exactly when `formConfig.requiresApproval`, else
`'confirmed'`, and whose initial `paymentStatus` is `'completed'` exactly
when its `totalAmount` is `0`, else `'pending'`. -/
theorem submit_initial_status (cfg : RegistrationFormConfig)
    (tts : List TicketType) (eventId : String) (db : DB)
    (fd : RegistrationFormData) (rid rdate code : String)
    (out : String × String) (db' : DB)
    (h : submitRegistrationMutation (some cfg) tts eventId db fd rid rdate code
          = (.ok out, db')) :
    ∃ reg, db'.registrations = reg :: db.registrations ∧
      reg.status = (if cfg.requiresApproval then RegStatus.pending
                    else RegStatus.confirmed) ∧
      reg.paymentStatus = (if reg.totalAmount = 0 then PayStatus.completed
                           else PayStatus.pending) :=
  ⟨_, (submit_ok_shape cfg tts eventId db fd rid rdate code out db' h).2,
    rfl, rfl⟩

/-- Witness for `submit_initial_status`: a concrete successful submission
with `requiresApproval = false` and a nonzero total. -/
theorem submit_initial_status_witness :
    ∃ reg,
      (submitRegistrationMutation (some demoCfg) [demoTicket] "ev1" demoDB
          demoFormData "r1" "2026-01-01" "CODE0001").2.registrations =
        reg :: demoDB.registrations ∧
      reg.status = (if demoCfg.requiresApproval then RegStatus.pending
                    else RegStatus.confirmed) ∧
      reg.paymentStatus = (if reg.totalAmount = 0 then PayStatus.completed
                           else PayStatus.pending) :=
  submit_initial_status demoCfg [demoTicket] "ev1" demoDB demoFormData
    "r1" "2026-01-01" "CODE0001" _ _ rfl

/-! ### Claim C7 -/

/-- The `reduce` of `calcTotalAmount`, with an arbitrary initial accumulator,
equals that accumulator plus the sum of snapshot-price × quantity over the
selections. -/
lemma calcFold_eq_sum (tts : List TicketType) :
    ∀ (sels : List TicketSelection) (a : Rat),
      sels.foldl
        (fun sum selection =>
          match tts.find? (fun t => t.id == selection.ticketTypeId) with
          | some ticketType =>
              sum + ticketType.price * (selection.quantity : Rat)
          | none => sum + 0)
        a
      = a + (sels.map fun s =>
          ((tts.find? (fun t => t.id == s.ticketTypeId)).elim 0
            fun t => t.price) * (s.quantity : Rat)).sum := by
  intro sels
  induction sels with
  | nil => intro a; simp
  | cons x xs ih =>
      intro a
      rw [List.foldl_cons, ih, List.map_cons, List.sum_cons]
      cases hf : tts.find? (fun t => t.id == x.ticketTypeId) with
      | none => dsimp only [Option.elim]; ring
      | some t => dsimp only [Option.elim]; ring

/-- `calcTotalAmount` is the sum over the selections of the snapshot price
times the requested quantity. -/
lemma calcTotalAmount_eq_sum (tts : List TicketType)
    (sels : List TicketSelection) :
    calcTotalAmount tts sels
      = (sels.map fun s =>
          ((tts.find? (fun t => t.id == s.ticketTypeId)).elim 0
            fun t => t.price) * (s.quantity : Rat)).sum := by
  unfold calcTotalAmount
  rw [calcFold_eq_sum]
  ring

/-- Overwriting every caller-supplied `price` field leaves `calcTotalAmount`
unchanged: the computation never reads `selection.price`. -/
lemma calcTotalAmount_map_price (tts : List TicketType) (p : Rat)
    (sels : List TicketSelection) :
    calcTotalAmount tts (sels.map fun s => { s with price := p })
      = calcTotalAmount tts sels := by
  rw [calcTotalAmount_eq_sum, calcTotalAmount_eq_sum, List.map_map]
  rfl

/-- Claim C7: every successful submit stores `totalAmount` equal to the sum
over the ticket selections of snapshot price × quantity, where the price
comes from the loaded ticket-type set; replacing the caller-supplied `price`
fields of the selections by anything does not change the computed amount. -/
theorem submit_totalAmount_from_snapshot (cfg : RegistrationFormConfig)
    (tts : List TicketType) (eventId : String) (db : DB)
    (fd : RegistrationFormData) (rid rdate code : String)
    (out : String × String) (db' : DB)
    (h : submitRegistrationMutation (some cfg) tts eventId db fd rid rdate code
          = (.ok out, db')) :
    ∃ reg, db'.registrations = reg :: db.registrations ∧
      reg.totalAmount
        = (fd.ticketSelections.map fun s =>
            ((tts.find? (fun t => t.id == s.ticketTypeId)).elim 0
              fun t => t.price) * (s.quantity : Rat)).sum ∧
      ∀ p : Rat,
        calcTotalAmount tts (fd.ticketSelections.map fun s =>
            { s with price := p })
          = calcTotalAmount tts fd.ticketSelections :=
  ⟨_, (submit_ok_shape cfg tts eventId db fd rid rdate code out db' h).2,
    calcTotalAmount_eq_sum tts fd.ticketSelections,
    fun p => calcTotalAmount_map_price tts p fd.ticketSelections⟩

/-- Witness for `submit_totalAmount_from_snapshot`: the same concrete
successful submission, with a caller-supplied price of 0 while the snapshot
price is 5. -/
theorem submit_totalAmount_from_snapshot_witness :
    ∃ reg,
      (submitRegistrationMutation (some demoCfg) [demoTicket] "ev1" demoDB
          demoFormData "r2" "2026-01-01" "CODE0002").2.registrations =
        reg :: demoDB.registrations ∧
      reg.totalAmount
        = (demoFormData.ticketSelections.map fun s =>
            (([demoTicket].find? (fun t => t.id == s.ticketTypeId)).elim 0
              fun t => t.price) * (s.quantity : Rat)).sum ∧
      ∀ p : Rat,
        calcTotalAmount [demoTicket] (demoFormData.ticketSelections.map fun s =>
            { s with price := p })
          = calcTotalAmount [demoTicket] demoFormData.ticketSelections :=
  submit_totalAmount_from_snapshot demoCfg [demoTicket] "ev1" demoDB
    demoFormData "r2" "2026-01-01" "CODE0002" _ _ rfl

/-! ### Claim C10 -/

/-- If some selection references an unknown ticket type or requests more than
the snapshot's `availableQuantity`, the validation loop reports an error. -/
lemma validate_some_of_bad (tts : List TicketType) :
    ∀ (sels : List TicketSelection),
      (∃ s ∈ sels,
        tts.find? (fun t => t.id == s.ticketTypeId) = none ∨
        ∃ t, tts.find? (fun t => t.id == s.ticketTypeId) = some t ∧
          t.availableQuantity < s.quantity) →
      ∃ e, validateTicketSelections tts sels = some e := by
  intro sels
  induction sels with
  | nil =>
      rintro ⟨s, hs, -⟩
      exact absurd hs (List.not_mem_nil s)
  | cons x xs ih =>
      rintro ⟨s, hs, hbad⟩
      cases hf : tts.find? (fun t => t.id == x.ticketTypeId) with
      | none =>
          exact ⟨"Ticket type not found: " ++ x.ticketTypeId,
            by simp [validateTicketSelections, hf]⟩
      | some t =>
          by_cases hlt : t.availableQuantity < x.quantity
          · exact ⟨"Insufficient tickets available for " ++ t.name,
              by simp [validateTicketSelections, hf, hlt]⟩
          · rcases List.mem_cons.mp hs with rfl | hmem
            · rcases hbad with hnone | ⟨t', ht', hlt'⟩
              · rw [hf] at hnone
                exact absurd hnone (by simp)
              · rw [hf] at ht'
                cases ht'
                exact absurd hlt' hlt
            · obtain ⟨e, he⟩ := ih ⟨s, hmem, hbad⟩
              exact ⟨e, by simp [validateTicketSelections, hf, hlt, he]⟩

/-- Claim C10: a submission containing a selection whose ticket type is not
in the loaded snapshot, or whose quantity exceeds the snapshot's
`availableQuantity`, fails with an error while the database is returned
untouched — no Registration is persisted and no availability is modified. -/
theorem submit_precheck_blocks (cfg : RegistrationFormConfig)
    (tts : List TicketType) (eventId : String) (db : DB)
    (fd : RegistrationFormData) (rid rdate code : String)
    (h : ∃ s ∈ fd.ticketSelections,
      tts.find? (fun t => t.id == s.ticketTypeId) = none ∨
      ∃ t, tts.find? (fun t => t.id == s.ticketTypeId) = some t ∧
        t.availableQuantity < s.quantity) :
    ∃ e, submitRegistrationMutation (some cfg) tts eventId db fd rid rdate code
          = (.error e, db) := by
  obtain ⟨e, he⟩ := validate_some_of_bad tts fd.ticketSelections h
  exact ⟨e, by unfold submitRegistrationMutation; rw [he]⟩

/-- A submission requesting more `t1` tickets than are available. -/
def tooManyFormData : RegistrationFormData :=
  { primaryParticipant := demoParticipant, additionalParticipants := [],
    ticketSelections := [{ ticketTypeId := "t1", quantity := 5, price := 0 }] }

/-- Witness for `submit_precheck_blocks`: requesting 5 of a ticket with 3
available fails and leaves the database untouched. -/
theorem submit_precheck_blocks_witness :
    ∃ e, submitRegistrationMutation (some demoCfg) [demoTicket] "ev1" demoDB
          tooManyFormData "r9" "2026-01-01" "CODE0003" = (.error e, demoDB) :=
  submit_precheck_blocks demoCfg [demoTicket] "ev1" demoDB tooManyFormData
    "r9" "2026-01-01" "CODE0003"
    ⟨{ ticketTypeId := "t1", quantity := 5, price := 0 }, by decide,
      Or.inr ⟨demoTicket, by decide, by decide⟩⟩

/-! ### Claim C8 -/

/-- The quantity of ticket type `t` sold by one registration: the sum of
`quantity` over its selections referencing `t`. -/
def soldQuantity (t : String) (r : Registration) : Int :=
  ((r.ticketSelections.filter fun s => s.ticketTypeId == t).map
    fun s => s.quantity).sum

/-- One registration's inner `forEach` over its selections adds exactly its
`soldQuantity` at each key. -/
lemma ticketsSold_inner (t : String) :
    ∀ (sels : List TicketSelection) (acc : String → Int),
      (sels.foldl
        (fun acc selection => fun u =>
          if u = selection.ticketTypeId then acc u + selection.quantity
          else acc u)
        acc) t
      = acc t + ((sels.filter fun s => s.ticketTypeId == t).map
          fun s => s.quantity).sum := by
  intro sels
  induction sels with
  | nil => intro acc; simp
  | cons x xs ih =>
      intro acc
      rw [List.foldl_cons, ih]
      by_cases hx : x.ticketTypeId = t
      · simp [List.filter_cons, hx]
        ring
      · have ht : ¬ t = x.ticketTypeId := fun h => hx h.symm
        have hx' : (x.ticketTypeId == t) = false := by simp [hx]
        simp only [List.filter_cons, hx', if_neg ht, Bool.false_eq_true,
          if_false]

/-- The outer `forEach` over registrations accumulates the sum of
`soldQuantity` over every registration, cancelled ones included. -/
lemma ticketsSold_outer (t : String) :
    ∀ (regs : List Registration) (acc : String → Int),
      (regs.foldl
        (fun acc registration =>
          registration.ticketSelections.foldl
            (fun acc selection => fun u =>
              if u = selection.ticketTypeId then acc u + selection.quantity
              else acc u)
            acc)
        acc) t
      = acc t + (regs.map (soldQuantity t)).sum := by
  intro regs
  induction regs with
  | nil => intro acc; simp
  | cons r rs ih =>
      intro acc
      rw [List.foldl_cons, ih, List.map_cons, List.sum_cons,
        ticketsSold_inner]
      unfold soldQuantity
      ring

/-- Folding `+ totalAmount` over a registration list equals the sum of the
mapped amounts. -/
lemma revenueFold_eq_sum :
    ∀ (l : List Registration) (a : Rat),
      l.foldl (fun sum r => sum + r.totalAmount) a
        = a + (l.map fun r => r.totalAmount).sum := by
  intro l
  induction l with
  | nil => intro a; simp
  | cons r rs ih =>
      intro a
      rw [List.foldl_cons, ih, List.map_cons, List.sum_cons]
      ring

/-- Claim C8 counterexample: a cancelled registration's ticket selections are
counted in `ticketsSold` — with a single cancelled registration holding a
selection of 3 `t1` tickets, the summary reports 3 sold, not the 0 the claim
(non-cancelled registrations only) requires. -/
theorem ticketsSold_counts_cancelled :
    ({ cancelledReg with
      ticketSelections := [{ ticketTypeId := "t1", quantity := 3, price := 5 }]
      paymentStatus := .refunded } : Registration).status =
        RegStatus.cancelled ∧
    (getRegistrationSummary
      [{ cancelledReg with
        ticketSelections := [{ ticketTypeId := "t1", quantity := 3, price := 5 }]
        paymentStatus := .refunded }]).ticketsSold "t1" = 3 ∧
    (3 : Int) ≠ 0 :=
  ⟨rfl, rfl, by decide⟩

/-- Claim C8 (amended): `getRegistrationSummary` computes `ticketsSold[t]` as
the sum of quantities of selections referencing `t` across *all* of the
event's registrations — cancelled registrations included — and
`totalRevenue` as the sum of `totalAmount` over registrations with
`paymentStatus = 'completed'`. -/
theorem summary_aggregation (regs : List Registration) (t : String) :
    (getRegistrationSummary regs).ticketsSold t
      = (regs.map (soldQuantity t)).sum ∧
    (getRegistrationSummary regs).totalRevenue
      = ((regs.filter fun r => r.paymentStatus = PayStatus.completed).map
          fun r => r.totalAmount).sum := by
  constructor
  · show ticketsSoldMap regs t = _
    unfold ticketsSoldMap
    rw [ticketsSold_outer]
    ring
  · show (regs.filter fun r => r.paymentStatus = PayStatus.completed).foldl
        (fun sum r => sum + r.totalAmount) 0 = _
    rw [revenueFold_eq_sum]
    ring

/-! ### Claim C9 -/

/-- A concrete interpretation of the JavaScript string predicates (their
behaviour is irrelevant to the counterexample and witness below). -/
def noJs : JsPredicates :=
  { regexTest := fun _ _ => false, isEmail := fun _ => false,
    isPhone := fun _ => false, parsesAsDate := fun _ => false }

/-- A required text field with no declared validation constraints. -/
def plainTextField : CustomField :=
  { id := "f1", name := "notes", label := "Notes", type := .text,
    required := true, options := none, validation := none, order := 1 }

/-- Claim C9 counterexample: the compiled validator for a required text field
with no declared constraints is plain `z.string()`, which accepts the empty
string — `required` only rejects a *missing* value, not `""`. -/
theorem requiredText_accepts_empty_string :
    plainTextField.required = true ∧
    plainTextField.type = CustomFieldType.text ∧
    createCustomFieldValidation noJs plainTextField (.str "") = true :=
  ⟨rfl, rfl, rfl⟩

/-- Claim C9 (amended): for a required text/textarea field the compiled
validator rejects a missing value and enforces any declared *nonzero*
min/max length and nonempty regex pattern, but with no constraints declared
it accepts every string, the empty string included. -/
theorem requiredText_validator_semantics (js : JsPredicates)
    (f : CustomField)
    (hty : f.type = CustomFieldType.text ∨ f.type = CustomFieldType.textarea)
    (hreq : f.required = true) :
    createCustomFieldValidation js f .missing = false ∧
    (f.validation = none →
      ∀ s, createCustomFieldValidation js f (.str s) = true) ∧
    (∀ rules m s, f.validation = some rules → rules.minLength = some m →
      m ≠ 0 → (s.length : Int) < m →
      createCustomFieldValidation js f (.str s) = false) ∧
    (∀ rules m s, f.validation = some rules → rules.maxLength = some m →
      m ≠ 0 → m < (s.length : Int) →
      createCustomFieldValidation js f (.str s) = false) ∧
    (∀ rules p s, f.validation = some rules → rules.pattern = some p →
      p ≠ "" → js.regexTest p s = false →
      createCustomFieldValidation js f (.str s) = false) := by
  have hcases := hty
  refine ⟨?_, ?_, ?_, ?_, ?_⟩ <;>
    rcases hcases with h | h
  case _ => simp [createCustomFieldValidation, h, hreq]
  case _ => simp [createCustomFieldValidation, h, hreq]
  case _ =>
    intro hv s
    simp [createCustomFieldValidation, h, hv]
  case _ =>
    intro hv s
    simp [createCustomFieldValidation, h, hv]
  case _ =>
    intro rules m s hv hm hm0 hlt
    simp [createCustomFieldValidation, h, hv, hm, hm0, not_le.mpr hlt]
  case _ =>
    intro rules m s hv hm hm0 hlt
    simp [createCustomFieldValidation, h, hv, hm, hm0, not_le.mpr hlt]
  case _ =>
    intro rules m s hv hm hm0 hlt
    simp [createCustomFieldValidation, h, hv, hm, hm0, not_le.mpr hlt]
  case _ =>
    intro rules m s hv hm hm0 hlt
    simp [createCustomFieldValidation, h, hv, hm, hm0, not_le.mpr hlt]
  case _ =>
    intro rules p s hv hp hp0 hre
    simp [createCustomFieldValidation, h, hv, hp, hp0, hre]
  case _ =>
    intro rules p s hv hp hp0 hre
    simp [createCustomFieldValidation, h, hv, hp, hp0, hre]

/-- A required text field declaring `minLength = 5`. -/
def minTextField : CustomField :=
  { id := "f2", name := "bio", label := "Bio", type := .text,
    required := true, options := none,
    validation := some { minLength := some 5, maxLength := none,
                         pattern := none, fileTypes := none,
                         maxFileSize := none },
    order := 2 }

/-- Witness for `requiredText_validator_semantics`: the two-character string
"ab" is rejected by a required text field declaring `minLength = 5`. -/
theorem requiredText_validator_semantics_witness :
    createCustomFieldValidation noJs minTextField (.str "ab") = false :=
  (requiredText_validator_semantics noJs minTextField (Or.inl rfl)
      rfl).2.2.1
    { minLength := some 5, maxLength := none, pattern := none,
      fileTypes := none, maxFileSize := none }
    5 "ab" rfl rfl (by decide) (by decide)
